import Mathlib

/-
Verification of ideapad-wmi-fn-keys (src/ideapad-wmi-fn-keys.c), a firmware
event translator: a static sparse keymap table maps WMI scancodes to either
a synthesized key press/release pair, an explicit ignore, or an unknown
fallback that is logged and dropped.

The driver's own code (the keymap table, ideapad_wmi_input_init,
ideapad_wmi_input_exit, ideapad_wmi_input_report, ideapad_wmi_notify) is
embedded from the C source.  The Linux input/sparse-keymap library functions
it calls (sparse_keymap_report_event, sparse_keymap_setup,
input_allocate_device, input_register_device, input_free_device,
input_unregister_device) are not part of this repository; their behaviour
is modelled from the specification of the dispatcher and of the external
registration/emission interfaces.
-/

/-- Standard key identifiers used as targets of KE_KEY entries in the table
(Linux input key codes, kept abstract: only their identity matters). -/
inductive KeyId where
  | KEY_PROG1
  | KEY_F14
  | KEY_FAVORITES
  | KEY_PROG2
  | KEY_PROG3
  | KEY_HELP
  | KEY_PROG4
  | KEY_PICKUP_PHONE
  | KEY_HANGUP_PHONE
deriving DecidableEq, Repr

/-- Entry kinds of a sparse keymap entry, as used in the source table:
KE_END is the terminating sentinel, KE_KEY maps to a key, KE_IGNORE marks
a scancode as handled with no emission. -/
inductive KeType where
  | KE_END
  | KE_KEY
  | KE_IGNORE
deriving DecidableEq, Repr

/-- One entry of the sparse keymap: an entry kind, a scancode, and for
KE_KEY entries the target key.  KE_IGNORE and KE_END entries carry no key
(the C struct zero-initializes the keycode there). -/
structure key_entry where
  type : KeType
  code : Nat
  keycode : Option KeyId
deriving DecidableEq, Repr

/-- The static keymap table ideapad_wmi_fn_key_keymap from the source,
entry for entry, including the KE_END sentinel (whose code is the zero
initialization of the C struct). -/
def ideapad_wmi_fn_key_keymap : List key_entry := [
  key_entry.mk KeType.KE_KEY    0x01 (some KeyId.KEY_PROG1),
  key_entry.mk KeType.KE_IGNORE 0x02 none,
  key_entry.mk KeType.KE_IGNORE 0x03 none,
  key_entry.mk KeType.KE_KEY    0x04 (some KeyId.KEY_F14),
  key_entry.mk KeType.KE_KEY    0x08 (some KeyId.KEY_FAVORITES),
  key_entry.mk KeType.KE_KEY    0x12 (some KeyId.KEY_PROG2),
  key_entry.mk KeType.KE_KEY    0x13 (some KeyId.KEY_PROG3),
  key_entry.mk KeType.KE_KEY    0x27 (some KeyId.KEY_HELP),
  key_entry.mk KeType.KE_KEY    0x28 (some KeyId.KEY_PROG4),
  key_entry.mk KeType.KE_KEY    0x0e (some KeyId.KEY_PICKUP_PHONE),
  key_entry.mk KeType.KE_KEY    0x0f (some KeyId.KEY_HANGUP_PHONE),
  key_entry.mk KeType.KE_END    0x00 none
]

/-- A synthetic input event delivered to the sink: a key and a value
(1 = press, 0 = release). -/
structure InputEvent where
  key : KeyId
  value : Nat
deriving DecidableEq, Repr

/-- Modelled from the spec: lookup in the sparse keymap library
(sparse_keymap_entry_from_scancode, not under src/).  Linear scan over the
table, stopping at the KE_END sentinel, returning the first entry whose
scancode matches. -/
def sparse_keymap_entry_from_scancode : List key_entry → Nat → Option key_entry
  | [], _ => none
  | e :: rest, code =>
    if e.type = KeType.KE_END then none
    else if e.code = code then some e
    else sparse_keymap_entry_from_scancode rest code

/-- Modelled from the spec: the events the sparse keymap library emits for
one matched entry (sparse_keymap_report_entry, not under src/).  A KE_KEY
entry reports its key with the given value and, when the value is nonzero
and autorelease is set, immediately reports the release; KE_IGNORE and
KE_END entries emit nothing. -/
def sparse_keymap_report_entry (e : key_entry) (value : Nat) (autorelease : Bool) :
    List InputEvent :=
  match e.type, e.keycode with
  | KeType.KE_KEY, some k =>
    InputEvent.mk k value :: (if (value != 0) && autorelease then [InputEvent.mk k 0] else [])
  | _, _ => []

/-- Modelled from the spec: sparse_keymap_report_event (not under src/).
Looks up the scancode; on a match emits the entry's events and reports the
event as handled (true), otherwise emits nothing and returns false. -/
def sparse_keymap_report_event (keymap : List key_entry) (code value : Nat)
    (autorelease : Bool) : Bool × List InputEvent :=
  match sparse_keymap_entry_from_scancode keymap code with
  | some e => (true, sparse_keymap_report_entry e value autorelease)
  | none => (false, [])

/-- Outcome of handling one scancode, the spec's view of
ideapad_wmi_input_report: Reported when a KE_KEY entry matched and a
press/release pair was emitted, Ignored when a KE_IGNORE entry matched,
Unknown when no entry matched (the code logs the scancode). -/
inductive Outcome where
  | Reported
  | Ignored
  | Unknown (scancode : Nat)
deriving DecidableEq, Repr

/-- The pure content of ideapad_wmi_input_report (src lines 110-115): call
sparse_keymap_report_event with value 1 and autorelease on the fixed table;
when unhandled, the scancode is logged as unknown.  The outcome
distinguishes the matched entry kind (a KE_KEY match emits and is
Reported, any other match is Ignored), and the emitted event list is
returned alongside. -/
def handle_event (scancode : Nat) : Outcome × List InputEvent :=
  match sparse_keymap_entry_from_scancode ideapad_wmi_fn_key_keymap scancode with
  | some e =>
    if e.type = KeType.KE_KEY then
      (Outcome.Reported, sparse_keymap_report_entry e 1 true)
    else
      (Outcome.Ignored, sparse_keymap_report_entry e 1 true)
  | none => (Outcome.Unknown scancode, [])

/-- Observable driver state threaded through calls: the dispatcher's sink
handle (priv->input_dev, none after teardown or before init), the events
delivered to the sink so far, and the scancodes logged as unknown. -/
structure SysState where
  input_dev : Option Unit
  emitted : List InputEvent
  unknown_log : List Nat
deriving DecidableEq, Repr

/-- ideapad_wmi_input_report (src lines 110-115) as a state transformer:
with no live sink the call dereferences a NULL input_dev (fatal, none);
with a live sink it appends the emitted events to the sink and, for an
unknown scancode, appends the scancode to the log. -/
def ideapad_wmi_input_report_st (st : SysState) (scancode : Nat) :
    Option (SysState × Outcome) :=
  match st.input_dev with
  | none => none
  | some _ =>
    some (SysState.mk st.input_dev (st.emitted ++ (handle_event scancode).2)
      (match (handle_event scancode).1 with
       | Outcome.Unknown c => st.unknown_log ++ [c]
       | _ => st.unknown_log), (handle_event scancode).1)

/-- ideapad_wmi_input_exit (src lines 104-108): unregister the sink and
clear priv->input_dev.  Calling it with no live sink passes NULL to
input_unregister_device, a fatal precondition violation (none). -/
def ideapad_wmi_input_exit (st : SysState) : Option SysState :=
  match st.input_dev with
  | some _ => some (SysState.mk none st.emitted st.unknown_log)
  | none => none

/-- Modelled from the spec: the capability set sparse_keymap_setup (not
under src/) declares on the sink: the key targets of all KE_KEY entries of
the table, up to the KE_END sentinel, in table order. -/
def sparse_keymap_setup_keybits : List key_entry → List KeyId
  | [] => []
  | e :: rest =>
    match e.type, e.keycode with
    | KeType.KE_END, _ => []
    | KeType.KE_KEY, some k => k :: sparse_keymap_setup_keybits rest
    | _, _ => sparse_keymap_setup_keybits rest

/-- Outcomes of the external calls made by ideapad_wmi_input_init, as
environment parameters: whether input_allocate_device succeeds, and the
error codes returned by sparse_keymap_setup and input_register_device
(0 meaning success). -/
structure InitEnv where
  alloc_ok : Bool
  setup_err : Int
  register_err : Int
deriving DecidableEq, Repr

/-- Observable result of ideapad_wmi_input_init: the returned error code,
whether a sink was allocated, whether input_free_device was called on it,
whether it ended up registered, and the final priv->input_dev. -/
structure InitResult where
  ret : Int
  allocated : Bool
  freed : Bool
  registered : Bool
  priv_input_dev : Option Unit
deriving DecidableEq, Repr

/-- The Linux errno ENOMEM. -/
def ENOMEM : Int := 12

/-- ideapad_wmi_input_init (src lines 67-102): allocate the sink
(returning -ENOMEM on failure), set up the keymap and register the device,
freeing the sink and propagating the error code if either fails, and on
success store the sink in priv->input_dev and return 0. -/
def ideapad_wmi_input_init (env : InitEnv) : InitResult :=
  if !env.alloc_ok then
    InitResult.mk (-ENOMEM) false false false none
  else if env.setup_err ≠ 0 then
    InitResult.mk env.setup_err true true false none
  else if env.register_err ≠ 0 then
    InitResult.mk env.register_err true true false none
  else
    InitResult.mk 0 true false true (some ())

/-- A WMI notification payload (union acpi_object): either an integer
carrying a 64-bit value, or some other type identified by its type tag. -/
inductive acpi_object where
  | integer (value : Nat)
  | other (typeTag : Nat)
deriving DecidableEq, Repr

/-- ideapad_wmi_notify (src lines 144-155): a non-integer payload is
rejected with a warning and nothing is dispatched (none); an integer
payload's 64-bit value is passed into ideapad_wmi_input_report's 32-bit
unsigned scancode parameter, truncating it modulo 2^32. -/
def ideapad_wmi_notify (data : acpi_object) : Option (Outcome × List InputEvent) :=
  match data with
  | acpi_object.integer v => some (handle_event (v % 2 ^ 32))
  | acpi_object.other _ => none

/- ------------------------------------------------------------------ -/
/- Helper lemmas                                                       -/
/- ------------------------------------------------------------------ -/

theorem report_entry_len_cases (e : key_entry) :
    sparse_keymap_report_entry e 1 true = [] ∨
    (sparse_keymap_report_entry e 1 true).length = 2 := by
  rcases e with ⟨t, c, k⟩
  cases t <;> cases k <;> simp [sparse_keymap_report_entry]

theorem handle_event_len (s : Nat) :
    (handle_event s).2.length = 0 ∨ (handle_event s).2.length = 2 := by
  cases h : sparse_keymap_entry_from_scancode ideapad_wmi_fn_key_keymap s with
  | none => simp [handle_event, h]
  | some e =>
    rcases report_entry_len_cases e with h2 | h2 <;>
      by_cases ht : e.type = KeType.KE_KEY <;>
      simp [handle_event, h, ht, h2]

theorem report_st_outcome (st : SysState) (s : Nat) (st1 : SysState) (o : Outcome)
    (h : ideapad_wmi_input_report_st st s = some (st1, o)) :
    o = (handle_event s).1 := by
  rcases st with ⟨d, em, lg⟩
  cases d with
  | none => simp [ideapad_wmi_input_report_st] at h
  | some u =>
    simp only [ideapad_wmi_input_report_st, Option.some.injEq, Prod.mk.injEq] at h
    exact h.2.symm

/- ------------------------------------------------------------------ -/
/- Claim theorems                                                      -/
/- ------------------------------------------------------------------ -/

/-- C1: every scancode present in the keymap as a KE_KEY entry, with its
target key, makes handle_event emit exactly a press immediately followed
by a release of that key and report the event as handled (Reported); and
across all scancodes the per-call emission count is 0 or 2. -/
theorem key_entries_emit_press_release_pair :
    (∀ p ∈ [((0x01 : Nat), KeyId.KEY_PROG1), (0x04, KeyId.KEY_F14),
            (0x08, KeyId.KEY_FAVORITES), (0x12, KeyId.KEY_PROG2),
            (0x13, KeyId.KEY_PROG3), (0x27, KeyId.KEY_HELP),
            (0x28, KeyId.KEY_PROG4), (0x0e, KeyId.KEY_PICKUP_PHONE),
            (0x0f, KeyId.KEY_HANGUP_PHONE)],
      handle_event p.1 =
        (Outcome.Reported, [InputEvent.mk p.2 1, InputEvent.mk p.2 0]))
    ∧ (∀ s : Nat, (handle_event s).2.length = 0 ∨ (handle_event s).2.length = 2) := by
  constructor
  · decide
  · exact handle_event_len

/-- Witness for C1 at the concrete scancode 0x04. -/
theorem key_entries_emit_press_release_pair_witness :
    handle_event 0x04 =
      (Outcome.Reported, [InputEvent.mk KeyId.KEY_F14 1, InputEvent.mk KeyId.KEY_F14 0]) :=
  key_entries_emit_press_release_pair.1 (0x04, KeyId.KEY_F14) (by decide)

/-- C2: a scancode absent from the keymap table emits no input event,
yields the non-fatal Unknown outcome, and changes no state beyond the
informational log entry: the sink handle and the delivered-event list of
the state are unchanged, only the scancode is appended to the log. -/
theorem unknown_scancode_reports_unknown (s : Nat) (st : SysState)
    (hlook : sparse_keymap_entry_from_scancode ideapad_wmi_fn_key_keymap s = none)
    (hdev : st.input_dev = some ()) :
    handle_event s = (Outcome.Unknown s, [])
    ∧ ideapad_wmi_input_report_st st s =
        some (SysState.mk st.input_dev st.emitted (st.unknown_log ++ [s]),
          Outcome.Unknown s) := by
  have h1 : handle_event s = (Outcome.Unknown s, []) := by
    simp [handle_event, hlook]
  refine ⟨h1, ?_⟩
  rcases st with ⟨d, em, lg⟩
  simp only at hdev
  subst hdev
  simp [ideapad_wmi_input_report_st, h1]

/-- Witness for C2 at the concrete unknown scancode 0x99. -/
theorem unknown_scancode_reports_unknown_witness :
    handle_event 0x99 = (Outcome.Unknown 0x99, [])
    ∧ ideapad_wmi_input_report_st (SysState.mk (some ()) [] []) 0x99 =
        some (SysState.mk (some ()) [] [0x99], Outcome.Unknown 0x99) :=
  unknown_scancode_reports_unknown 0x99 (SysState.mk (some ()) [] []) (by decide) rfl

/-- C3: the KE_IGNORE entries of the table are exactly the scancodes 0x02
and 0x03, and handling either emits zero input events and yields the
Ignored outcome (handled, so no unknown report either). -/
theorem ignore_entries_ignored :
    (ideapad_wmi_fn_key_keymap.filter
        (fun e => e.type == KeType.KE_IGNORE)).map key_entry.code = [0x02, 0x03]
    ∧ handle_event 0x02 = (Outcome.Ignored, [])
    ∧ handle_event 0x03 = (Outcome.Ignored, []) := by decide

/-- C5: the capability set declared on the sink at initialization is
exactly the key targets of the KE_KEY entries of the table: the nine keys
listed, pairwise distinct, so the declared set has exactly 9 members. -/
theorem capability_set_matches_key_targets :
    sparse_keymap_setup_keybits ideapad_wmi_fn_key_keymap =
      [KeyId.KEY_PROG1, KeyId.KEY_F14, KeyId.KEY_FAVORITES, KeyId.KEY_PROG2,
       KeyId.KEY_PROG3, KeyId.KEY_HELP, KeyId.KEY_PROG4,
       KeyId.KEY_PICKUP_PHONE, KeyId.KEY_HANGUP_PHONE]
    ∧ (sparse_keymap_setup_keybits ideapad_wmi_fn_key_keymap).Nodup
    ∧ (sparse_keymap_setup_keybits ideapad_wmi_fn_key_keymap).length = 9 := by decide

/-- C8: structural invariant of the keymap table: the scancodes of the
non-sentinel entries are pairwise distinct and never the reserved 0x00;
the table ends in the single KE_END sentinel; and it is small: 11 real
entries, at most about 15. -/
theorem keymap_structural_invariant :
    ((ideapad_wmi_fn_key_keymap.filter
        (fun e => !(e.type == KeType.KE_END))).map key_entry.code).Nodup
    ∧ (ideapad_wmi_fn_key_keymap.filter
        (fun e => !(e.type == KeType.KE_END))).all (fun e => e.code != 0) = true
    ∧ ideapad_wmi_fn_key_keymap.getLast? =
        some (key_entry.mk KeType.KE_END 0x00 none)
    ∧ ideapad_wmi_fn_key_keymap.countP (fun e => e.type == KeType.KE_END) = 1
    ∧ (ideapad_wmi_fn_key_keymap.filter
        (fun e => !(e.type == KeType.KE_END))).length = 11
    ∧ (ideapad_wmi_fn_key_keymap.filter
        (fun e => !(e.type == KeType.KE_END))).length ≤ 15 := by decide

/-- C4: ideapad_wmi_input_init returns -ENOMEM exactly on the path where
sink allocation fails (nothing was allocated there); when keymap setup or
device registration fails it propagates that error code, and on every such
post-allocation failure path the sink is freed before returning, so no
sink is leaked; on success it returns 0 with the registered sink stored in
priv->input_dev.  The final conjunct states the no-leak property over all
environments: the sink is freed exactly when it was allocated but did not
end up registered. -/
theorem input_init_error_paths_free_sink (env : InitEnv) :
    (env.alloc_ok = false →
      ideapad_wmi_input_init env = InitResult.mk (-ENOMEM) false false false none)
    ∧ (env.alloc_ok = true → env.setup_err ≠ 0 →
      ideapad_wmi_input_init env = InitResult.mk env.setup_err true true false none)
    ∧ (env.alloc_ok = true → env.setup_err = 0 → env.register_err ≠ 0 →
      ideapad_wmi_input_init env = InitResult.mk env.register_err true true false none)
    ∧ (env.alloc_ok = true → env.setup_err = 0 → env.register_err = 0 →
      ideapad_wmi_input_init env = InitResult.mk 0 true false true (some ()))
    ∧ (ideapad_wmi_input_init env).freed =
        ((ideapad_wmi_input_init env).allocated
          && !(ideapad_wmi_input_init env).registered) := by
  rcases env with ⟨a, es, er⟩
  cases a <;> by_cases hs : es = 0 <;> by_cases hr : er = 0 <;>
    simp [ideapad_wmi_input_init, hs, hr]

/-- Witness for C4: registration failure with code -22 frees the sink and
propagates the code. -/
theorem input_init_error_paths_free_sink_witness :
    ideapad_wmi_input_init (InitEnv.mk true 0 (-22)) =
      InitResult.mk (-22) true true false none :=
  (input_init_error_paths_free_sink (InitEnv.mk true 0 (-22))).2.2.1 rfl rfl (by decide)

/-- C6: a notification payload whose type tag is not the integer type is
rejected without reaching the scancode lookup and emits nothing (none);
an integer payload's value is forwarded into handle_event. -/
theorem notify_rejects_non_integer_payloads :
    (∀ t : Nat, ideapad_wmi_notify (acpi_object.other t) = none)
    ∧ (∀ v : Nat, ideapad_wmi_notify (acpi_object.integer v) =
        some (handle_event (v % 2 ^ 32))) := by
  exact ⟨fun t => rfl, fun v => rfl⟩

/-- C7: teardown on a live sink unregisters it and clears the dispatcher's
handle; afterwards an emission attempt through the stale handle is
rejected (none) rather than delivered, and a second teardown is a fatal
precondition violation (none). -/
theorem input_exit_releases_sink (st : SysState) (h : st.input_dev = some ()) :
    ideapad_wmi_input_exit st = some (SysState.mk none st.emitted st.unknown_log)
    ∧ (∀ s : Nat,
        ideapad_wmi_input_report_st (SysState.mk none st.emitted st.unknown_log) s = none)
    ∧ ideapad_wmi_input_exit (SysState.mk none st.emitted st.unknown_log) = none := by
  rcases st with ⟨d, em, lg⟩
  simp only at h
  subst h
  refine ⟨rfl, fun s => rfl, rfl⟩

/-- Witness for C7 on a concrete freshly initialized state. -/
theorem input_exit_releases_sink_witness :
    ideapad_wmi_input_exit (SysState.mk (some ()) [] []) =
      some (SysState.mk none [] [])
    ∧ (∀ s : Nat, ideapad_wmi_input_report_st (SysState.mk none [] []) s = none)
    ∧ ideapad_wmi_input_exit (SysState.mk none [] []) = none :=
  input_exit_releases_sink (SysState.mk (some ()) [] []) rfl

/-- C9: the outcome of handling a scancode is a pure function of the
scancode: two successive calls on the same scancode from any reachable
state produce identical outcomes, both equal to the outcome of the pure
table lookup, since the lookup reads only the immutable table and no
hidden state accumulates between calls. -/
theorem handle_event_deterministic (st st1 st2 : SysState) (s : Nat)
    (o1 o2 : Outcome)
    (h1 : ideapad_wmi_input_report_st st s = some (st1, o1))
    (h2 : ideapad_wmi_input_report_st st1 s = some (st2, o2)) :
    o1 = o2 ∧ o1 = (handle_event s).1 := by
  have e1 := report_st_outcome st s st1 o1 h1
  have e2 := report_st_outcome st1 s st2 o2 h2
  exact ⟨e1.trans e2.symm, e1⟩

/-- Witness for C9: two successive calls with the unknown scancode 0x99. -/
theorem handle_event_deterministic_witness :
    Outcome.Unknown 0x99 = Outcome.Unknown 0x99
    ∧ Outcome.Unknown 0x99 = (handle_event 0x99).1 :=
  handle_event_deterministic (SysState.mk (some ()) [] [])
    (SysState.mk (some ()) [] [0x99]) (SysState.mk (some ()) [] [0x99, 0x99])
    0x99 (Outcome.Unknown 0x99) (Outcome.Unknown 0x99) (by decide) (by decide)

/-- C10: the scancode looked up for an integer payload is the 64-bit value
reduced modulo 2^32 (the u64 value is passed into the 32-bit unsigned
scancode parameter), so any two payload values congruent modulo 2^32
produce identical outcomes and emissions. -/
theorem notify_truncates_payload_mod_2_32 (v1 v2 : Nat)
    (h : v1 % 2 ^ 32 = v2 % 2 ^ 32) :
    ideapad_wmi_notify (acpi_object.integer v1) =
      ideapad_wmi_notify (acpi_object.integer v2)
    ∧ ideapad_wmi_notify (acpi_object.integer v1) =
      some (handle_event (v1 % 2 ^ 32)) := by
  exact ⟨by simp only [ideapad_wmi_notify]; rw [h], rfl⟩

/-- Witness for C10 at 0x04 and 0x1_0000_0004, which are congruent
modulo 2^32. -/
theorem notify_truncates_payload_mod_2_32_witness :
    ideapad_wmi_notify (acpi_object.integer 0x04) =
      ideapad_wmi_notify (acpi_object.integer 0x100000004)
    ∧ ideapad_wmi_notify (acpi_object.integer 0x04) =
      some (handle_event (0x04 % 2 ^ 32)) :=
  notify_truncates_payload_mod_2_32 0x04 0x100000004 (by norm_num)
